import Mathlib

/-!
Verification development for the order/commission layer of the hosting
backend (`app/services/order_service.py`).  The active (non-superseded)
definitions of `OrderService` are embedded shallowly: the relational store
becomes an explicit `DB` record of row lists, session mutation becomes
functional update keyed on primary keys, `datetime.utcnow()` becomes an
explicit `now : Nat` argument, and `Decimal`/numeric arithmetic is carried
out over `ℚ`.  Random draws of the number generators become an explicit
stream `draws : Nat → String`, and the unbounded retry loop is given fuel.
-/

namespace BackendTemplate

/-- Rounding half to even of a rational to an integer, the tie rule of the
Python builtin `round`. -/
def roundHalfEven (q : ℚ) : ℤ :=
  let n := q.floor
  let frac := q - n
  if frac < 1 / 2 then n
  else if 1 / 2 < frac then n + 1
  else if n % 2 = 0 then n else n + 1

/-- `round(x, 2)` of Python over the rational model. -/
def round2 (q : ℚ) : ℚ := (roundHalfEven (q * 100) : ℚ) / 100

/-- Row of `UserProfile`: the fields the embedded code touches.  The
`referred_by` column is the optional self link forming the referral tree. -/
structure UserProfile where
  id : Nat
  referred_by : Option Nat
  deriving DecidableEq, Repr

/-- Row of `Order`: the fields the embedded code reads or writes.
`grand_total` is the stored numeric total (non NULL for orders produced by
`create_order`, so the `or 0` fallback of the source is the identity). -/
structure Order where
  id : Nat
  user_id : Nat
  plan_id : Nat
  order_number : String
  gateway_order_id : Option String
  billing_cycle : String
  order_status : String
  payment_status : String
  total_amount : ℚ
  discount_amount : ℚ
  tax_amount : ℚ
  grand_total : ℚ
  payment_id : Option String
  completed_at : Option Nat
  payment_date : Option Nat
  created_at : Nat
  updated_at : Nat
  deriving DecidableEq, Repr

/-- Row of `Invoice`: the fields the embedded code reads or writes. -/
structure Invoice where
  id : Nat
  order_id : Nat
  invoice_number : String
  status : String
  payment_status : String
  total_amount : ℚ
  amount_paid : ℚ
  balance_due : ℚ
  updated_at : Nat
  deriving DecidableEq, Repr

/-- Row of `ReferralEarning` as constructed in `complete_order`. -/
structure ReferralEarning where
  user_id : Nat
  referred_user_id : Nat
  order_id : Nat
  level : Nat
  commission_rate : ℚ
  order_amount : ℚ
  commission_amount : ℚ
  status : String
  earned_at : Nat
  deriving DecidableEq, Repr

/-- The relational store. -/
structure DB where
  orders : List Order
  users : List UserProfile
  invoices : List Invoice
  earnings : List ReferralEarning
  deriving DecidableEq, Repr

/-- `select(Order).filter(Order.id == order_id)` followed by `.first()`. -/
def findOrderById (orders : List Order) (oid : Nat) : Option Order :=
  orders.find? (fun o => o.id == oid)

/-- `select(UserProfile).filter(UserProfile.id == uid)` followed by `.first()`. -/
def findUserById (users : List UserProfile) (uid : Nat) : Option UserProfile :=
  users.find? (fun u => u.id == uid)

/-- `select(Order).where(Order.id == order_id, Order.user_id == user_id)`. -/
def findUserOrder (orders : List Order) (user_id order_id : Nat) : Option Order :=
  orders.find? (fun o => o.id == order_id && o.user_id == user_id)

/-- Session write back of a mutated `Order` row, keyed on the primary key. -/
def setOrder (orders : List Order) (o : Order) : List Order :=
  orders.map (fun x => if x.id == o.id then o else x)

/-- Session write back of a mutated `Invoice` row, keyed on the primary key. -/
def setInvoice (invoices : List Invoice) (inv : Invoice) : List Invoice :=
  invoices.map (fun x => if x.id == inv.id then inv else x)

/-- The `commission_structure` dict of `complete_order`:
level 1 earns 10 percent, level 2 earns 5, level 3 earns 2. -/
def commission_structure : List (Nat × ℚ) := [(1, 10), (2, 5), (3, 2)]

/-- `commission_structure[current_level]` (0 outside the table; the walk
only reads levels present in the table). -/
def commissionRate (level : Nat) : ℚ := (commission_structure.lookup level).getD 0

/-- The `while current_user.referred_by and current_level <= len(commission_structure)`
loop of `complete_order`.  `fuel` is the number of levels still allowed
(`len(commission_structure) - current_level + 1`), so the guard
`current_level <= len(commission_structure)` is `fuel > 0`.  Each pass looks
up the referrer of `cu`; a missing profile ends the walk (`break`).  The
earning row is built exactly as in the source: the active code stores
`user_id=buyer.id` and `referred_user_id=referrer.id`. -/
def referralWalk (users : List UserProfile) (buyerId orderId : Nat)
    (order_amount : ℚ) (now : Nat) : UserProfile → Nat → Nat → List ReferralEarning
  | _, _, 0 => []
  | cu, level, fuel + 1 =>
    match cu.referred_by with
    | none => []
    | some rid =>
      match findUserById users rid with
      | none => []
      | some referrer =>
        { user_id := buyerId
          referred_user_id := referrer.id
          order_id := orderId
          level := level
          commission_rate := commissionRate level
          order_amount := order_amount
          commission_amount := round2 (order_amount * (commissionRate level / 100))
          status := "pending"
          earned_at := now } ::
          referralWalk users buyerId orderId order_amount now referrer (level + 1) fuel

/-- `OrderService.complete_order` (the active definition): fetch the order
(`False` when absent), mark it completed and stamp `completed_at`, fetch the
buyer (commit and return `True` when absent), then run the multi level
referral walk from the buyer at level 1 and commit. -/
def completeOrder (db : DB) (order_id : Nat) (now : Nat) : DB × Bool :=
  match findOrderById db.orders order_id with
  | none => (db, false)
  | some order =>
    let order2 := { order with order_status := "completed", completed_at := some now }
    let db1 := { db with orders := setOrder db.orders order2 }
    match findUserById db1.users order2.user_id with
    | none => (db1, true)
    | some buyer =>
      let new_earnings :=
        referralWalk db1.users buyer.id order2.id order2.grand_total now buyer 1
          commission_structure.length
      ({ db1 with earnings := db1.earnings ++ new_earnings }, true)

/-- `OrderService.complete_order_by_gateway`: find the order by
`gateway_order_id` (`False` when absent); when already paid and completed
return `True` with no writes; otherwise link the payment id, mark paid and
completed, stamp `payment_date` and `updated_at`, and mirror a linked
invoice (found by `order_id`) to paid with zero balance. -/
def completeOrderByGateway (db : DB) (razorpay_order_id payment_id : String)
    (amount_paid : ℚ) (now : Nat) : DB × Bool :=
  match db.orders.find? (fun o => o.gateway_order_id == some razorpay_order_id) with
  | none => (db, false)
  | some order =>
    if order.payment_status == "paid" && order.order_status == "completed" then
      (db, true)
    else
      let order2 := { order with
        payment_id := some payment_id
        payment_status := "paid"
        order_status := "completed"
        payment_date := some now
        updated_at := now }
      let db1 := { db with orders := setOrder db.orders order2 }
      match db1.invoices.find? (fun inv => inv.order_id == order.id) with
      | none => (db1, true)
      | some inv =>
        let inv2 := { inv with
          status := "paid"
          payment_status := "paid"
          amount_paid := amount_paid
          balance_due := 0
          updated_at := now }
        ({ db1 with invoices := setInvoice db1.invoices inv2 }, true)

/-- `OrderService.cancel_order`: fetch by id, set `order_status` to
`cancelled`, commit; `False` when the order is absent. -/
def cancelOrder (db : DB) (order_id : Nat) : DB × Bool :=
  match findOrderById db.orders order_id with
  | none => (db, false)
  | some order =>
    ({ db with orders := setOrder db.orders { order with order_status := "cancelled" } }, true)

/-- `OrderService.cancel_user_order`: as `cancel_order` but the lookup also
requires the owning user. -/
def cancelUserOrder (db : DB) (user_id order_id : Nat) : DB × Bool :=
  match findUserOrder db.orders user_id order_id with
  | none => (db, false)
  | some order =>
    ({ db with orders := setOrder db.orders { order with order_status := "cancelled" } }, true)

/-- The Python `str.lower()` applied to the billing cycle: lowercase every
character.  (Stated over the character data so that the kernel can evaluate
it; it agrees with `String.toLower`.) -/
def strLower (s : String) : String := ⟨s.data.map Char.toLower⟩

/-- The billing cycle to discount percent dict of `create_order`. -/
def discount_map : List (String × ℚ) :=
  [("monthly", 5), ("quarterly", 10), ("semi-annually", 15),
   ("annually", 20), ("biennially", 25), ("triennially", 35)]

/-- The monetary quantities `create_order` derives from the plan subtotal
and the billing cycle. -/
structure OrderTotals where
  discount_percent : ℚ
  discount_amount : ℚ
  discounted_total : ℚ
  gst_amount : ℚ
  tds_amount : ℚ
  grand_total : ℚ
  deriving DecidableEq, Repr

/-- Steps 3 and 4 of `create_order`: discount lookup on the lowercased
cycle (default 0) and the exact `Decimal` arithmetic of the totals. -/
def computeOrderTotals (subtotal : ℚ) (billing_cycle : String) : OrderTotals :=
  let discount_percent := (discount_map.lookup (strLower billing_cycle)).getD 0
  let discount_amount := (subtotal * discount_percent) / 100
  let discounted_total := subtotal - discount_amount
  let gst_amount := (discounted_total * 18) / 100
  let tds_amount := (discounted_total * 10) / 100
  { discount_percent := discount_percent
    discount_amount := discount_amount
    discounted_total := discounted_total
    gst_amount := gst_amount
    tds_amount := tds_amount
    grand_total := discounted_total + gst_amount - tds_amount }

/-- The retry loop shared by `_generate_order_number` and
`_generate_invoice_number`: draw the suffix `draws i`, prepend the tag,
check for collision against the existing column values, and retry on a
hit.  The source loop is unbounded; `fuel` bounds the embedding. -/
def genUniqueNumber (tag : String) (existing : List String) (draws : Nat → String) :
    Nat → Nat → Option String
  | _, 0 => none
  | i, fuel + 1 =>
    let candidate := tag ++ draws i
    if existing.contains candidate then genUniqueNumber tag existing draws (i + 1) fuel
    else some candidate

/-- `OrderService._generate_order_number`: retry over `ORD-` candidates
against the stored `order_number` column. -/
def generateOrderNumber (db : DB) (draws : Nat → String) (fuel : Nat) : Option String :=
  genUniqueNumber "ORD-" (db.orders.map (fun o => o.order_number)) draws 0 fuel

/-- `OrderService._generate_invoice_number`: retry over `INV-` candidates
against the stored `invoice_number` column. -/
def generateInvoiceNumber (db : DB) (draws : Nat → String) (fuel : Nat) : Option String :=
  genUniqueNumber "INV-" (db.invoices.map (fun v => v.invoice_number)) draws 0 fuel

/-- `complete_order` with the transaction boundary explicit: all row
mutations are staged in the session and applied by the single `commit` at
the end of the call (or the one in the missing buyer branch).  `commitOk`
models whether that commit succeeds; a failing commit applies nothing and
the error propagates to the caller (the source has no handler here). -/
def completeOrderTx (db : DB) (order_id : Nat) (now : Nat) (commitOk : Bool) :
    DB × Except String Bool :=
  match findOrderById db.orders order_id with
  | none => (db, .ok false)
  | some order =>
    let order2 := { order with order_status := "completed", completed_at := some now }
    let db1 := { db with orders := setOrder db.orders order2 }
    match findUserById db1.users order2.user_id with
    | none => if commitOk then (db1, .ok true) else (db, .error "persistence failure")
    | some buyer =>
      let new_earnings :=
        referralWalk db1.users buyer.id order2.id order2.grand_total now buyer 1
          commission_structure.length
      let db2 := { db1 with earnings := db1.earnings ++ new_earnings }
      if commitOk then (db2, .ok true) else (db, .error "persistence failure")

/-- `complete_order_by_gateway` with the transaction boundary explicit: one
commit applies the staged order and invoice rows; on failure the `except`
handler rolls back (nothing is applied) and re-raises. -/
def completeOrderByGatewayTx (db : DB) (razorpay_order_id payment_id : String)
    (amount_paid : ℚ) (now : Nat) (commitOk : Bool) : DB × Except String Bool :=
  match db.orders.find? (fun o => o.gateway_order_id == some razorpay_order_id) with
  | none => (db, .ok false)
  | some order =>
    if order.payment_status == "paid" && order.order_status == "completed" then
      (db, .ok true)
    else
      let order2 := { order with
        payment_id := some payment_id
        payment_status := "paid"
        order_status := "completed"
        payment_date := some now
        updated_at := now }
      let db1 := { db with orders := setOrder db.orders order2 }
      match db1.invoices.find? (fun inv => inv.order_id == order.id) with
      | none => if commitOk then (db1, .ok true) else (db, .error "persistence failure")
      | some inv =>
        let inv2 := { inv with
          status := "paid"
          payment_status := "paid"
          amount_paid := amount_paid
          balance_due := 0
          updated_at := now }
        let db2 := { db1 with invoices := setInvoice db1.invoices inv2 }
        if commitOk then (db2, .ok true) else (db, .error "persistence failure")

/-- The fully resolving referral chain above a user: `chain` lists the
successive referrers reached by following `referred_by`, every link
resolving in `users`, down to a user with no referrer.  The depth of the
chain is `chain.length`. -/
inductive ReferralChain (users : List UserProfile) : UserProfile → List UserProfile → Prop
  | nil (u : UserProfile) : u.referred_by = none → ReferralChain users u []
  | cons (u r : UserProfile) (rid : Nat) (rest : List UserProfile) :
      u.referred_by = some rid → findUserById users rid = some r →
      ReferralChain users r rest → ReferralChain users u (r :: rest)

/-- A referral chain whose last `referred_by` link points at `missing`, an
id that resolves to no profile in `users`; `chain` lists the referrers that
do resolve before the dangling link. -/
inductive BrokenChain (users : List UserProfile) :
    UserProfile → List UserProfile → Nat → Prop
  | stop (u : UserProfile) (rid : Nat) :
      u.referred_by = some rid → findUserById users rid = none →
      BrokenChain users u [] rid
  | cons (u r : UserProfile) (rid missing : Nat) (rest : List UserProfile) :
      u.referred_by = some rid → findUserById users rid = some r →
      BrokenChain users r rest missing → BrokenChain users u (r :: rest) missing

/-- The earnings the walk emits along a list of successive referrers:
one row per referrer while fuel lasts, levels counting up from `level`. -/
def chainEarnings (buyerId orderId : Nat) (amt : ℚ) (now : Nat) :
    List UserProfile → Nat → Nat → List ReferralEarning
  | _, _, 0 => []
  | [], _, _ + 1 => []
  | r :: rest, level, fuel + 1 =>
    { user_id := buyerId
      referred_user_id := r.id
      order_id := orderId
      level := level
      commission_rate := commissionRate level
      order_amount := amt
      commission_amount := round2 (amt * (commissionRate level / 100))
      status := "pending"
      earned_at := now } :: chainEarnings buyerId orderId amt now rest (level + 1) fuel

/-- A sample order row for concrete runs (fields not under test are
fillers). -/
def baseOrder (oid uid : Nat) (gw : Option String) (ost pst : String) (gt : ℚ) : Order :=
  { id := oid, user_id := uid, plan_id := 4, order_number := "ORD-SAMPLE",
    gateway_order_id := gw, billing_cycle := "annually", order_status := ost,
    payment_status := pst, total_amount := 1000, discount_amount := 200,
    tax_amount := 144, grand_total := gt, payment_id := none,
    completed_at := none, payment_date := none, created_at := 0, updated_at := 0 }

def c1_order : Order := baseOrder 10 1 none "pending" "pending" 864

def c1_db : DB :=
  { orders := [c1_order], users := [⟨1, some 2⟩, ⟨2, some 3⟩, ⟨3, none⟩],
    invoices := [], earnings := [] }

def c2_order : Order := baseOrder 10 1 (some "rz2") "completed" "paid" 100

def c2_db : DB :=
  { orders := [c2_order], users := [⟨1, some 2⟩, ⟨2, none⟩],
    invoices := [], earnings := [] }

def c3_db : DB :=
  { orders := [baseOrder 10 1 none "pending" "pending" 100],
    users := [⟨1, some 2⟩, ⟨2, none⟩], invoices := [], earnings := [] }

def c4_order : Order := baseOrder 10 1 (some "rz4") "pending" "pending" 864

def c4_inv : Invoice :=
  { id := 5, order_id := 10, invoice_number := "INV-4", status := "unpaid",
    payment_status := "pending", total_amount := 864, amount_paid := 0,
    balance_due := 864, updated_at := 0 }

def c4_db : DB :=
  { orders := [c4_order], users := [⟨1, some 2⟩, ⟨2, none⟩],
    invoices := [c4_inv], earnings := [] }

def c6_db : DB :=
  { orders := [baseOrder 10 1 (some "rz6") "pending" "pending" 50],
    users := [⟨1, some 2⟩, ⟨2, none⟩], invoices := [], earnings := [] }

def c7_order : Order := baseOrder 10 1 (some "rz7") "pending" "pending" 60

def c7_db : DB :=
  { orders := [c7_order], users := [⟨1, some 2⟩, ⟨2, none⟩],
    invoices := [], earnings := [] }

def c8_db : DB :=
  { orders := [{ baseOrder 10 1 none "pending" "pending" 10 with order_number := "ORD-X" }],
    users := [],
    invoices := [{ id := 5, order_id := 10, invoice_number := "INV-X",
                   status := "unpaid", payment_status := "pending",
                   total_amount := 10, amount_paid := 0, balance_due := 10,
                   updated_at := 0 }],
    earnings := [] }

def c8_draws : Nat → String := fun i => if i = 0 then "X" else "Y"

def c9_order : Order := baseOrder 10 1 none "pending" "pending" 200

def c9_db : DB :=
  { orders := [c9_order], users := [⟨1, some 2⟩, ⟨2, some 99⟩],
    invoices := [], earnings := [] }

def c10_order : Order := baseOrder 10 1 none "completed" "paid" 864

def c10_db : DB :=
  { orders := [c10_order], users := [⟨1, none⟩], invoices := [], earnings := [] }

theorem referralWalk_of_chain (users : List UserProfile) (bId oid : Nat) (amt : ℚ)
    (now : Nat) {cu : UserProfile} {chain : List UserProfile}
    (h : ReferralChain users cu chain) :
    ∀ level fuel, referralWalk users bId oid amt now cu level fuel
      = chainEarnings bId oid amt now chain level fuel := by
  induction h with
  | nil u hu =>
    intro level fuel
    cases fuel <;> simp [referralWalk, chainEarnings, hu]
  | cons u r rid rest h1 h2 _ ih =>
    intro level fuel
    cases fuel with
    | zero => simp [referralWalk, chainEarnings]
    | succ f => simp [referralWalk, chainEarnings, h1, h2, ih]

theorem referralWalk_of_broken (users : List UserProfile) (bId oid : Nat) (amt : ℚ)
    (now : Nat) {cu : UserProfile} {chain : List UserProfile} {missing : Nat}
    (h : BrokenChain users cu chain missing) :
    ∀ level fuel, chain.length < fuel →
      referralWalk users bId oid amt now cu level fuel
        = chainEarnings bId oid amt now chain level fuel := by
  induction h with
  | stop u rid h1 h2 =>
    intro level fuel hf
    match fuel, hf with
    | f + 1, _ => simp [referralWalk, chainEarnings, h1, h2]
  | cons u r rid missing rest h1 h2 _ ih =>
    intro level fuel hf
    match fuel, hf with
    | f + 1, hf =>
      have hr : rest.length < f := by simpa using hf
      simp [referralWalk, chainEarnings, h1, h2, ih _ _ hr]

theorem chainEarnings_length (bId oid : Nat) (amt : ℚ) (now : Nat) :
    ∀ (c : List UserProfile) (level fuel : Nat),
      (chainEarnings bId oid amt now c level fuel).length = min c.length fuel := by
  intro c
  induction c with
  | nil => intro level fuel; cases fuel <;> simp [chainEarnings]
  | cons r rest ih =>
    intro level fuel
    cases fuel with
    | zero => simp [chainEarnings]
    | succ f => simp [chainEarnings, ih]; omega

theorem chainEarnings_get (bId oid : Nat) (amt : ℚ) (now : Nat) :
    ∀ (c : List UserProfile) (level fuel i : Nat)
      (hi : i < (chainEarnings bId oid amt now c level fuel).length)
      (hc : i < c.length),
      (chainEarnings bId oid amt now c level fuel).get ⟨i, hi⟩ =
        { user_id := bId
          referred_user_id := (c.get ⟨i, hc⟩).id
          order_id := oid
          level := level + i
          commission_rate := commissionRate (level + i)
          order_amount := amt
          commission_amount := round2 (amt * (commissionRate (level + i) / 100))
          status := "pending"
          earned_at := now } := by
  intro c
  induction c with
  | nil => intro level fuel i hi hc; simp at hc
  | cons r rest ih =>
    intro level fuel i hi hc
    cases fuel with
    | zero => simp [chainEarnings] at hi
    | succ f =>
      cases i with
      | zero => simp [chainEarnings]
      | succ j =>
        have hi2 : j < (chainEarnings bId oid amt now rest (level + 1) f).length := by
          simpa [chainEarnings] using hi
        have hc2 : j < rest.length := by simpa using hc
        have := ih (level + 1) f j hi2 hc2
        simp only [chainEarnings, List.get, this]
        have hadd : level + 1 + j = level + (j + 1) := by omega
        simp [hadd]

theorem find_replaceBy {α : Type} (key : α → Nat) (p : α → Bool) :
    ∀ (l : List α) (a b : α), l.find? p = some a → key b = key a → p b = true →
      (l.map (fun x => if key x == key b then b else x)).find? p = some b := by
  intro l
  induction l with
  | nil => intro a b h _ _; simp [List.find?] at h
  | cons x t ih =>
    intro a b h hk hp
    by_cases hpx : p x = true
    · rw [List.find?_cons_of_pos _ hpx] at h
      injection h with h
      subst h
      have hxb : (key x == key b) = true := by simp [hk]
      simp only [List.map, hxb, if_pos]
      exact List.find?_cons_of_pos _ hp
    · rw [List.find?_cons_of_neg _ hpx] at h
      by_cases hxb : key x = key b
      · have hxb2 : (key x == key b) = true := by simp [hxb]
        simp only [List.map, hxb2, if_pos]
        exact List.find?_cons_of_pos _ hp
      · have hxb2 : (key x == key b) = false := by simp [hxb]
        simp only [List.map, hxb2, Bool.false_eq_true, if_false]
        rw [List.find?_cons_of_neg _ hpx]
        exact ih a b h hk hp

theorem mem_replaceBy_of_ne {α : Type} (key : α → Nat) (l : List α) (b x : α)
    (hx : x ∈ l) (hne : key x ≠ key b) :
    x ∈ l.map (fun y => if key y == key b then b else y) := by
  have : x = (fun y => if key y == key b then b else y) x := by
    have : (key x == key b) = false := by simp [hne]
    simp [this]
  rw [this]
  exact List.mem_map_of_mem _ hx

theorem genUniqueNumber_spec (tag : String) (existing : List String) (draws : Nat → String) :
    ∀ (fuel i : Nat) (s : String), genUniqueNumber tag existing draws i fuel = some s →
      s ∉ existing ∧ ∃ k, i ≤ k ∧ s = tag ++ draws k ∧
        ∀ j, i ≤ j → j < k → (tag ++ draws j) ∈ existing := by
  intro fuel
  induction fuel with
  | zero => intro i s h; simp [genUniqueNumber] at h
  | succ f ih =>
    intro i s h
    rw [genUniqueNumber] at h
    by_cases hc : existing.contains (tag ++ draws i) = true
    · rw [if_pos hc] at h
      obtain ⟨hns, k, hik, hs, hall⟩ := ih (i + 1) s h
      refine ⟨hns, k, by omega, hs, ?_⟩
      intro j hij hjk
      rcases Nat.eq_or_lt_of_le hij with heq | hlt
      · rw [← heq]
        exact List.mem_of_elem_eq_true hc
      · exact hall j hlt hjk
    · rw [if_neg hc] at h
      injection h with h
      subst h
      refine ⟨fun hmem => hc (List.elem_eq_true_of_mem hmem), i, Nat.le_refl _, rfl, ?_⟩
      intro j hij hji
      omega

theorem discount_lookup (key : String) :
    (discount_map.lookup key).getD 0 =
      (if key = "monthly" then (5 : ℚ)
       else if key = "quarterly" then 10
       else if key = "semi-annually" then 15
       else if key = "annually" then 20
       else if key = "biennially" then 25
       else if key = "triennially" then 35
       else 0) := by
  by_cases h1 : key = "monthly"
  · rw [h1]; simp [discount_map, List.lookup]
  by_cases h2 : key = "quarterly"
  · rw [h2]; simp [discount_map, List.lookup]
  by_cases h3 : key = "semi-annually"
  · rw [h3]; simp [discount_map, List.lookup]
  by_cases h4 : key = "annually"
  · rw [h4]; simp [discount_map, List.lookup]
  by_cases h5 : key = "biennially"
  · rw [h5]; simp [discount_map, List.lookup]
  by_cases h6 : key = "triennially"
  · rw [h6]; simp [discount_map, List.lookup]
  simp [discount_map, List.lookup, h1, h2, h3, h4, h5, h6,
    beq_eq_false_iff_ne.mpr h1, beq_eq_false_iff_ne.mpr h2,
    beq_eq_false_iff_ne.mpr h3, beq_eq_false_iff_ne.mpr h4,
    beq_eq_false_iff_ne.mpr h5, beq_eq_false_iff_ne.mpr h6]

/-- Claim C5: for every plan subtotal and billing cycle, `create_order`
derives the discount percent from the table monthly 5, quarterly 10,
semi-annually 15, annually 20, biennially 25, triennially 35 (any other
cycle 0, matched on the lowercased cycle), and computes
`discount_amount = subtotal * discount_percent / 100`,
`discounted_total = subtotal - discount_amount`,
`gst_amount = discounted_total * 18 / 100`,
`tds_amount = discounted_total * 10 / 100`,
`grand_total = discounted_total + gst_amount - tds_amount`; in particular
subtotal 1000 with cycle `annually` yields discount 200, discounted total
800, gst 144, tds 80 and grand total 864. -/
theorem create_order_pricing (subtotal : ℚ) (cycle : String) :
    (computeOrderTotals subtotal cycle).discount_percent =
      (if strLower cycle = "monthly" then (5 : ℚ)
       else if strLower cycle = "quarterly" then 10
       else if strLower cycle = "semi-annually" then 15
       else if strLower cycle = "annually" then 20
       else if strLower cycle = "biennially" then 25
       else if strLower cycle = "triennially" then 35
       else 0) ∧
    (computeOrderTotals subtotal cycle).discount_amount
      = subtotal * (computeOrderTotals subtotal cycle).discount_percent / 100 ∧
    (computeOrderTotals subtotal cycle).discounted_total
      = subtotal - (computeOrderTotals subtotal cycle).discount_amount ∧
    (computeOrderTotals subtotal cycle).gst_amount
      = (computeOrderTotals subtotal cycle).discounted_total * 18 / 100 ∧
    (computeOrderTotals subtotal cycle).tds_amount
      = (computeOrderTotals subtotal cycle).discounted_total * 10 / 100 ∧
    (computeOrderTotals subtotal cycle).grand_total
      = (computeOrderTotals subtotal cycle).discounted_total
        + (computeOrderTotals subtotal cycle).gst_amount
        - (computeOrderTotals subtotal cycle).tds_amount ∧
    computeOrderTotals 1000 "annually" =
      { discount_percent := 20, discount_amount := 200, discounted_total := 800,
        gst_amount := 144, tds_amount := 80, grand_total := 864 } := by
  refine ⟨discount_lookup (strLower cycle), rfl, rfl, rfl, rfl, rfl, ?_⟩
  have h : strLower "annually" = "annually" := by decide
  simp [computeOrderTotals, h, discount_map, List.lookup, OrderTotals.mk.injEq]
  norm_num

/-- Claim C1: when the purchasing user of an existing order heads a fully
resolving referral chain of depth `D`, `complete_order` creates exactly
`min D 3` ReferralEarning rows, one per level `1, 2, 3` with rates 10, 5
and 2 percent, each with commission amount
`round(grand_total * rate / 100, 2)`, order amount equal to the grand
total of the order, and status `pending`. -/
theorem complete_order_referral_fanout
    (db : DB) (order_id now : Nat) (order : Order) (buyer : UserProfile)
    (chain : List UserProfile)
    (ho : findOrderById db.orders order_id = some order)
    (hb : findUserById db.users order.user_id = some buyer)
    (hc : ReferralChain db.users buyer chain) :
    ∃ E : List ReferralEarning,
      (completeOrder db order_id now).1.earnings = db.earnings ++ E ∧
      (completeOrder db order_id now).2 = true ∧
      E.length = min chain.length 3 ∧
      ∀ (i : Nat) (hi : i < E.length),
        (E.get ⟨i, hi⟩).level = i + 1 ∧
        (E.get ⟨i, hi⟩).commission_rate =
          (if i = 0 then (10 : ℚ) else if i = 1 then 5 else 2) ∧
        (E.get ⟨i, hi⟩).commission_amount =
          round2 (order.grand_total *
            ((if i = 0 then (10 : ℚ) else if i = 1 then 5 else 2) / 100)) ∧
        (E.get ⟨i, hi⟩).order_amount = order.grand_total ∧
        (E.get ⟨i, hi⟩).status = "pending" := by
  have hrw := referralWalk_of_chain db.users buyer.id order.id order.grand_total now hc 1 3
  refine ⟨chainEarnings buyer.id order.id order.grand_total now chain 1 3, ?_, ?_, ?_, ?_⟩
  · simp [completeOrder, ho, hb, commission_structure, hrw]
  · simp [completeOrder, ho, hb]
  · exact chainEarnings_length buyer.id order.id order.grand_total now chain 1 3
  · intro i hi
    have hlen := chainEarnings_length buyer.id order.id order.grand_total now chain 1 3
    have hic : i < chain.length := by rw [hlen] at hi; omega
    have hi3 : i < 3 := by rw [hlen] at hi; omega
    have hget := chainEarnings_get buyer.id order.id order.grand_total now chain 1 3 i hi hic
    rw [hget]
    have hrate : commissionRate (1 + i) =
        (if i = 0 then (10 : ℚ) else if i = 1 then 5 else 2) := by
      interval_cases i <;> decide
    refine ⟨by simp [Nat.add_comm], hrate, by rw [hrate], rfl, rfl⟩

theorem completeOrder_run (db : DB) (order_id now : Nat) (order : Order)
    (ho : findOrderById db.orders order_id = some order) :
    (completeOrder db order_id now).2 = true ∧
    (completeOrder db order_id now).1.orders =
      setOrder db.orders { order with order_status := "completed", completed_at := some now } ∧
    (completeOrder db order_id now).1.invoices = db.invoices ∧
    (completeOrder db order_id now).1.users = db.users := by
  rcases hx : findUserById db.users order.user_id with _ | buyer <;>
    simp [completeOrder, ho, hx]

/-- Witness for claim C1 at a depth 2 chain: buyer 1 referred by 2, 2
referred by 3, 3 unreferred; two earning rows result. -/
theorem complete_order_referral_fanout_witness :
    ∃ E : List ReferralEarning,
      (completeOrder c1_db 10 77).1.earnings = c1_db.earnings ++ E ∧
      (completeOrder c1_db 10 77).2 = true ∧
      E.length = min ([(⟨2, some 3⟩ : UserProfile), ⟨3, none⟩] : List UserProfile).length 3 ∧
      ∀ (i : Nat) (hi : i < E.length),
        (E.get ⟨i, hi⟩).level = i + 1 ∧
        (E.get ⟨i, hi⟩).commission_rate =
          (if i = 0 then (10 : ℚ) else if i = 1 then 5 else 2) ∧
        (E.get ⟨i, hi⟩).commission_amount =
          round2 (c1_order.grand_total *
            ((if i = 0 then (10 : ℚ) else if i = 1 then 5 else 2) / 100)) ∧
        (E.get ⟨i, hi⟩).order_amount = c1_order.grand_total ∧
        (E.get ⟨i, hi⟩).status = "pending" :=
  complete_order_referral_fanout c1_db 10 77 c1_order ⟨1, some 2⟩
    [⟨2, some 3⟩, ⟨3, none⟩] rfl rfl
    (ReferralChain.cons _ _ 2 _ rfl rfl
      (ReferralChain.cons _ _ 3 _ rfl rfl (ReferralChain.nil _ rfl)))

/-- Claim C9: when the upward walk reaches a referred_by id that resolves
to no profile, `complete_order` ends the walk normally instead of erring:
it returns true, the order status update is committed, and exactly the
earnings of the levels before the dangling link are committed. -/
theorem complete_order_missing_referrer
    (db : DB) (order_id now : Nat) (order : Order) (buyer : UserProfile)
    (chain : List UserProfile) (missing : Nat)
    (ho : findOrderById db.orders order_id = some order)
    (hb : findUserById db.users order.user_id = some buyer)
    (hbc : BrokenChain db.users buyer chain missing)
    (hlen : chain.length < 3) :
    (completeOrder db order_id now).2 = true ∧
    findOrderById (completeOrder db order_id now).1.orders order_id =
      some { order with order_status := "completed", completed_at := some now } ∧
    ∃ E : List ReferralEarning,
      (completeOrder db order_id now).1.earnings = db.earnings ++ E ∧
      E.length = chain.length := by
  have hwalk := referralWalk_of_broken db.users buyer.id order.id order.grand_total now hbc 1 3 hlen
  have hrun := completeOrder_run db order_id now order ho
  refine ⟨hrun.1, ?_, chainEarnings buyer.id order.id order.grand_total now chain 1 3, ?_, ?_⟩
  · rw [hrun.2.1]
    have ho2 : db.orders.find? (fun o => o.id == order_id) = some order := ho
    have hpo := List.find?_some ho2
    exact find_replaceBy (fun o : Order => o.id) (fun o => o.id == order_id) db.orders order
      { order with order_status := "completed", completed_at := some now } ho2 rfl hpo
  · simp [completeOrder, ho, hb, commission_structure, hwalk]
  · exact (chainEarnings_length buyer.id order.id order.grand_total now chain 1 3).trans
      (Nat.min_eq_left (Nat.le_of_lt hlen))

/-- Witness for claim C9: buyer 1 referred by 2, whose own referrer id 99
resolves to nobody; one earning row results and the order completes. -/
theorem complete_order_missing_referrer_witness :
    (completeOrder c9_db 10 6).2 = true ∧
    findOrderById (completeOrder c9_db 10 6).1.orders 10 =
      some { c9_order with order_status := "completed", completed_at := some 6 } ∧
    ∃ E : List ReferralEarning,
      (completeOrder c9_db 10 6).1.earnings = c9_db.earnings ++ E ∧
      E.length = ([(⟨2, some 99⟩ : UserProfile)] : List UserProfile).length :=
  complete_order_missing_referrer c9_db 10 6 c9_order ⟨1, some 2⟩ [⟨2, some 99⟩] 99
    rfl rfl
    (BrokenChain.cons _ _ 2 99 _ rfl rfl (BrokenChain.stop _ 99 rfl rfl))
    (by decide)

/-- Claim C2 counterexample: order 10 of `c2_db` is already completed and
paid and no earnings exist, yet calling `complete_order` on it again emits
a fresh ReferralEarning row, so repeated finalization is not a no-op on
the direct entry point. -/
theorem second_finalization_not_noop :
    (findOrderById c2_db.orders 10).map (fun o => (o.order_status, o.payment_status))
      = some ("completed", "paid") ∧
    c2_db.earnings.length = 0 ∧
    (completeOrder c2_db 10 5).1.earnings.length = 1 :=
  ⟨rfl, rfl, rfl⟩

/-- Claim C2 amended: only the gateway entry point checks the current
status before its side effects: re-finalizing an already completed and
paid order through `complete_order_by_gateway` is a no-op that returns
true and leaves the store untouched.  (`complete_order` has no such check
and repeats the commission fan-out, per the counterexample.) -/
theorem gateway_refinalization_noop (db : DB) (rz pid : String) (amt : ℚ)
    (now : Nat) (order : Order)
    (hf : db.orders.find? (fun o => o.gateway_order_id == some rz) = some order)
    (hp : order.payment_status = "paid") (hs : order.order_status = "completed") :
    completeOrderByGateway db rz pid amt now = (db, true) := by
  simp [completeOrderByGateway, hf, hp, hs]

/-- Witness for the amended claim C2 at the completed, paid order of
`c2_db`. -/
theorem gateway_refinalization_noop_witness :
    completeOrderByGateway c2_db "rz2" "p9" 50 8 = (c2_db, true) :=
  gateway_refinalization_noop c2_db "rz2" "p9" 50 8 c2_order rfl rfl rfl

/-- Claim C3, evaluated at the failing input: buyer 1 was referred by
user 2; the single earning row `complete_order` creates stores
`user_id = 1` (the buyer) and `referred_user_id = 2` (the referrer) - the
reverse of the claimed direction.  The adjacent commented out assignments
in the source and the spec data model both put the referrer in `user_id`. -/
theorem earning_direction_at_failing_input :
    (c3_db.users.map (fun u => (u.id, u.referred_by)) = [(1, some 2), (2, none)]) ∧
    (completeOrder c3_db 10 4).1.earnings.map (fun e => (e.user_id, e.referred_user_id))
      = [(1, 2)] :=
  ⟨rfl, rfl⟩

/-- Claim C4 counterexample: completing the pending order 10 of `c4_db`
through `complete_order` neither marks the payment paid nor touches the
linked invoice, refuting the claim for the direct entry point. -/
theorem complete_order_leaves_payment_and_invoice :
    ¬ ((completeOrder c4_db 10 7).1.orders.map (fun o => o.payment_status) = ["paid"] ∧
       (completeOrder c4_db 10 7).1.invoices.map (fun v => v.status) = ["paid"]) := by
  decide

/-- Claim C4 amended: `complete_order` only sets the order status to
completed and stamps `completed_at`, leaving the payment status, all other
order fields and the invoices unchanged; `complete_order_by_gateway` (on
an order not already paid and completed) additionally links the payment
id, sets payment status paid, stamps `payment_date` and `updated_at`, and
sets a linked invoice to paid with its balance due zeroed. -/
theorem finalize_status_effects
    (db : DB) (order_id now : Nat) (order : Order)
    (gdb : DB) (rz pid : String) (amt : ℚ) (g_order : Order) (inv : Invoice)
    (ho : findOrderById db.orders order_id = some order)
    (hg : gdb.orders.find? (fun o => o.gateway_order_id == some rz) = some g_order)
    (hgid : findOrderById gdb.orders g_order.id = some g_order)
    (hnp : (g_order.payment_status == "paid" && g_order.order_status == "completed") = false)
    (hinv : gdb.invoices.find? (fun v => v.order_id == g_order.id) = some inv) :
    (completeOrder db order_id now).2 = true ∧
    findOrderById (completeOrder db order_id now).1.orders order_id =
      some { order with order_status := "completed", completed_at := some now } ∧
    (completeOrder db order_id now).1.invoices = db.invoices ∧
    (completeOrderByGateway gdb rz pid amt now).2 = true ∧
    findOrderById (completeOrderByGateway gdb rz pid amt now).1.orders g_order.id =
      some { g_order with
             payment_id := some pid
             payment_status := "paid"
             order_status := "completed"
             payment_date := some now
             updated_at := now } ∧
    (completeOrderByGateway gdb rz pid amt now).1.invoices.find?
        (fun v => v.order_id == g_order.id) =
      some { inv with
             status := "paid"
             payment_status := "paid"
             amount_paid := amt
             balance_due := 0
             updated_at := now } := by
  have hrun := completeOrder_run db order_id now order ho
  have ho2 : db.orders.find? (fun o => o.id == order_id) = some order := ho
  have hpo := List.find?_some ho2
  refine ⟨hrun.1, ?_, hrun.2.2.1, ?_, ?_, ?_⟩
  · rw [hrun.2.1]
    exact find_replaceBy (fun o : Order => o.id) (fun o => o.id == order_id) db.orders order
      { order with order_status := "completed", completed_at := some now } ho2 rfl hpo
  · simp [completeOrderByGateway, hg, hnp, hinv]
  · have horders : (completeOrderByGateway gdb rz pid amt now).1.orders =
        setOrder gdb.orders { g_order with
          payment_id := some pid
          payment_status := "paid"
          order_status := "completed"
          payment_date := some now
          updated_at := now } := by
      simp [completeOrderByGateway, hg, hnp, hinv]
    rw [horders]
    have hg2 : gdb.orders.find? (fun o => o.id == g_order.id) = some g_order := hgid
    have hpg := List.find?_some hg2
    exact find_replaceBy (fun o : Order => o.id) (fun o => o.id == g_order.id) gdb.orders
      g_order _ hg2 rfl hpg
  · have hinvs : (completeOrderByGateway gdb rz pid amt now).1.invoices =
        setInvoice gdb.invoices { inv with
          status := "paid"
          payment_status := "paid"
          amount_paid := amt
          balance_due := 0
          updated_at := now } := by
      simp [completeOrderByGateway, hg, hnp, hinv]
    rw [hinvs]
    have hpv := List.find?_some hinv
    exact find_replaceBy (fun v : Invoice => v.id) (fun v => v.order_id == g_order.id)
      gdb.invoices inv _ hinv rfl hpv

/-- Witness for the amended claim C4 at `c4_db` (direct path on order 10,
gateway path on the same order via its gateway id). -/
theorem finalize_status_effects_witness :
    (completeOrder c4_db 10 7).2 = true ∧
    findOrderById (completeOrder c4_db 10 7).1.orders 10 =
      some { c4_order with order_status := "completed", completed_at := some 7 } ∧
    (completeOrder c4_db 10 7).1.invoices = c4_db.invoices ∧
    (completeOrderByGateway c4_db "rz4" "p4" 864 7).2 = true ∧
    findOrderById (completeOrderByGateway c4_db "rz4" "p4" 864 7).1.orders c4_order.id =
      some { c4_order with
             payment_id := some "p4"
             payment_status := "paid"
             order_status := "completed"
             payment_date := some 7
             updated_at := 7 } ∧
    (completeOrderByGateway c4_db "rz4" "p4" 864 7).1.invoices.find?
        (fun v => v.order_id == c4_order.id) =
      some { c4_inv with
             status := "paid"
             payment_status := "paid"
             amount_paid := 864
             balance_due := 0
             updated_at := 7 } :=
  finalize_status_effects c4_db 10 7 c4_order c4_db "rz4" "p4" 864 c4_order c4_inv
    rfl rfl rfl (by decide) rfl

/-- Claim C6 counterexample: the buyer of the order behind gateway id
`rz6` has a resolving referrer, yet finalization through the gateway path
creates no ReferralEarning row at all. -/
theorem gateway_fanout_missing :
    c6_db.users.map (fun u => (u.id, u.referred_by)) = [(1, some 2), (2, none)] ∧
    (completeOrderByGateway c6_db "rz6" "p6" 50 3).2 = true ∧
    (completeOrderByGateway c6_db "rz6" "p6" 50 3).1.earnings.length = 0 :=
  ⟨rfl, rfl, rfl⟩

/-- Claim C6 amended: the gateway entry point performs no commission fan
out whatsoever - `complete_order_by_gateway` never creates or alters
ReferralEarning rows; the fan-out happens only in `complete_order`. -/
theorem gateway_no_fanout (db : DB) (rz pid : String) (amt : ℚ) (now : Nat) :
    (completeOrderByGateway db rz pid amt now).1.earnings = db.earnings := by
  rcases hf : db.orders.find? (fun o => o.gateway_order_id == some rz) with _ | order
  · simp [completeOrderByGateway, hf]
  · by_cases hp : (order.payment_status == "paid" && order.order_status == "completed") = true
    · simp [completeOrderByGateway, hf, hp]
    · rcases hi : db.invoices.find? (fun v => v.order_id == order.id) with _ | inv <;>
        simp [completeOrderByGateway, hf, hp, hi]

/-- Claim C7: with the transaction boundary modeled explicitly (all row
mutations staged, one commit applying them atomically or failing), a
failing commit during finalization leaves the store exactly as it was -
no order update, no invoice update and no partial commission fan-out is
observable - and the error propagates to the caller, on both entry
points. -/
theorem finalize_rollback_atomic (db : DB) (order_id now : Nat)
    (rz pid : String) (amt : ℚ) :
    (completeOrderTx db order_id now false).1 = db ∧
    (completeOrderByGatewayTx db rz pid amt now false).1 = db ∧
    (∀ order, findOrderById db.orders order_id = some order →
      (completeOrderTx db order_id now false).2 = Except.error "persistence failure") ∧
    (∀ order, db.orders.find? (fun o => o.gateway_order_id == some rz) = some order →
      (order.payment_status == "paid" && order.order_status == "completed") = false →
      (completeOrderByGatewayTx db rz pid amt now false).2 =
        Except.error "persistence failure") := by
  refine ⟨?_, ?_, ?_, ?_⟩
  · rcases ho : findOrderById db.orders order_id with _ | order
    · simp [completeOrderTx, ho]
    · rcases hb : findUserById db.users order.user_id with _ | buyer <;>
        simp [completeOrderTx, ho, hb]
  · rcases hf : db.orders.find? (fun o => o.gateway_order_id == some rz) with _ | order
    · simp [completeOrderByGatewayTx, hf]
    · by_cases hp : (order.payment_status == "paid" && order.order_status == "completed") = true
      · simp [completeOrderByGatewayTx, hf, hp]
      · rcases hi : db.invoices.find? (fun v => v.order_id == order.id) with _ | inv <;>
          simp [completeOrderByGatewayTx, hf, hp, hi]
  · intro order ho
    rcases hb : findUserById db.users order.user_id with _ | buyer <;>
      simp [completeOrderTx, ho, hb]
  · intro order hf hp
    rcases hi : db.invoices.find? (fun v => v.order_id == order.id) with _ | inv <;>
      simp [completeOrderByGatewayTx, hf, hp, hi]

/-- Witness for claim C7 at `c7_db` with a failing commit. -/
theorem finalize_rollback_atomic_witness :
    (completeOrderTx c7_db 10 3 false).1 = c7_db ∧
    (completeOrderByGatewayTx c7_db "rz7" "px" 5 3 false).1 = c7_db ∧
    (completeOrderTx c7_db 10 3 false).2 = Except.error "persistence failure" ∧
    (completeOrderByGatewayTx c7_db "rz7" "px" 5 3 false).2 =
      Except.error "persistence failure" := by
  have h := finalize_rollback_atomic c7_db 10 3 "rz7" "px" 5
  exact ⟨h.1, h.2.1, h.2.2.1 c7_order rfl, h.2.2.2 c7_order rfl (by decide)⟩

/-- Claim C8: a successfully generated order number (invoice number)
collides with no order_number (invoice_number) stored at the time of the
check; every candidate drawn before it was a collision with an existing
record - a colliding draw is never returned, the loop draws a fresh
candidate instead (and the store is never written by the generator, which
only reads). -/
theorem generated_numbers_unique (db : DB) (draws : Nat → String) (fuel : Nat)
    (s t : String)
    (ho : generateOrderNumber db draws fuel = some s)
    (hi : generateInvoiceNumber db draws fuel = some t) :
    (s ∉ db.orders.map (fun o => o.order_number) ∧
      ∃ k, s = "ORD-" ++ draws k ∧
        ∀ j, j < k → ("ORD-" ++ draws j) ∈ db.orders.map (fun o => o.order_number)) ∧
    (t ∉ db.invoices.map (fun v => v.invoice_number) ∧
      ∃ k, t = "INV-" ++ draws k ∧
        ∀ j, j < k → ("INV-" ++ draws j) ∈ db.invoices.map (fun v => v.invoice_number)) := by
  have ho2 : genUniqueNumber "ORD-" (db.orders.map (fun o => o.order_number))
      draws 0 fuel = some s := ho
  have hi2 : genUniqueNumber "INV-" (db.invoices.map (fun v => v.invoice_number))
      draws 0 fuel = some t := hi
  obtain ⟨h1, k, hk0, h2, h3⟩ := genUniqueNumber_spec "ORD-"
    (db.orders.map (fun o => o.order_number)) draws fuel 0 s ho2
  obtain ⟨g1, m, hm0, g2, g3⟩ := genUniqueNumber_spec "INV-"
    (db.invoices.map (fun v => v.invoice_number)) draws fuel 0 t hi2
  exact ⟨⟨h1, k, h2, fun j hj => h3 j (Nat.zero_le j) hj⟩,
    ⟨g1, m, g2, fun j hj => g3 j (Nat.zero_le j) hj⟩⟩

/-- Witness for claim C8: the first draw X collides with the stored
`ORD-X` and `INV-X`; the generators return the second draw Y. -/
theorem generated_numbers_unique_witness :
    ("ORD-Y" ∉ c8_db.orders.map (fun o => o.order_number) ∧
      ∃ k, "ORD-Y" = "ORD-" ++ c8_draws k ∧
        ∀ j, j < k → ("ORD-" ++ c8_draws j) ∈ c8_db.orders.map (fun o => o.order_number)) ∧
    ("INV-Y" ∉ c8_db.invoices.map (fun v => v.invoice_number) ∧
      ∃ k, "INV-Y" = "INV-" ++ c8_draws k ∧
        ∀ j, j < k → ("INV-" ++ c8_draws j) ∈ c8_db.invoices.map (fun v => v.invoice_number)) :=
  generated_numbers_unique c8_db c8_draws 3 "ORD-Y" "INV-Y" (by decide) (by decide)

/-- Claim C10: `cancel_order` and `cancel_user_order` impose no
precondition on the current state: whenever a matching order exists -
whatever its order or payment status - they set its order_status to
cancelled, leave its other fields, the other orders, the users, invoices
and earnings unchanged, and return true; they return false exactly when
no matching order exists. -/
theorem cancel_order_unconditional (db : DB) (user_id order_id : Nat) :
    (findOrderById db.orders order_id = none → cancelOrder db order_id = (db, false)) ∧
    (∀ o, findOrderById db.orders order_id = some o →
      (cancelOrder db order_id).2 = true ∧
      findOrderById (cancelOrder db order_id).1.orders order_id =
        some { o with order_status := "cancelled" } ∧
      (∀ x ∈ db.orders, x.id ≠ order_id → x ∈ (cancelOrder db order_id).1.orders) ∧
      (cancelOrder db order_id).1.users = db.users ∧
      (cancelOrder db order_id).1.invoices = db.invoices ∧
      (cancelOrder db order_id).1.earnings = db.earnings) ∧
    (findUserOrder db.orders user_id order_id = none →
      cancelUserOrder db user_id order_id = (db, false)) ∧
    (∀ o, findUserOrder db.orders user_id order_id = some o →
      (cancelUserOrder db user_id order_id).2 = true ∧
      findUserOrder (cancelUserOrder db user_id order_id).1.orders user_id order_id =
        some { o with order_status := "cancelled" } ∧
      (∀ x ∈ db.orders, x.id ≠ order_id →
        x ∈ (cancelUserOrder db user_id order_id).1.orders) ∧
      (cancelUserOrder db user_id order_id).1.users = db.users ∧
      (cancelUserOrder db user_id order_id).1.invoices = db.invoices ∧
      (cancelUserOrder db user_id order_id).1.earnings = db.earnings) := by
  refine ⟨?_, ?_, ?_, ?_⟩
  · intro h; simp [cancelOrder, h]
  · intro o h
    have h2 : db.orders.find? (fun x => x.id == order_id) = some o := h
    have hpo := List.find?_some h2
    have hoid : o.id = order_id := by simpa using hpo
    refine ⟨by simp [cancelOrder, h], ?_, ?_, by simp [cancelOrder, h],
      by simp [cancelOrder, h], by simp [cancelOrder, h]⟩
    · have hcan : (cancelOrder db order_id).1.orders =
          setOrder db.orders { o with order_status := "cancelled" } := by
        simp [cancelOrder, h]
      rw [hcan]
      exact find_replaceBy (fun x : Order => x.id) (fun x => x.id == order_id) db.orders o
        { o with order_status := "cancelled" } h2 rfl hpo
    · intro x hx hne
      have hcan : (cancelOrder db order_id).1.orders =
          setOrder db.orders { o with order_status := "cancelled" } := by
        simp [cancelOrder, h]
      rw [hcan]
      exact mem_replaceBy_of_ne (fun y : Order => y.id) db.orders _ x hx
        (by simpa [hoid] using hne)
  · intro h; simp [cancelUserOrder, h]
  · intro o h
    have h2 : db.orders.find? (fun x => x.id == order_id && x.user_id == user_id) = some o := h
    have hpo := List.find?_some h2
    have hoid : o.id = order_id := by
      have h3 := hpo
      simp [Bool.and_eq_true] at h3
      exact h3.1
    refine ⟨by simp [cancelUserOrder, h], ?_, ?_, by simp [cancelUserOrder, h],
      by simp [cancelUserOrder, h], by simp [cancelUserOrder, h]⟩
    · have hcan : (cancelUserOrder db user_id order_id).1.orders =
          setOrder db.orders { o with order_status := "cancelled" } := by
        simp [cancelUserOrder, h]
      rw [hcan]
      exact find_replaceBy (fun x : Order => x.id)
        (fun x => x.id == order_id && x.user_id == user_id) db.orders o
        { o with order_status := "cancelled" } h2 rfl hpo
    · intro x hx hne
      have hcan : (cancelUserOrder db user_id order_id).1.orders =
          setOrder db.orders { o with order_status := "cancelled" } := by
        simp [cancelUserOrder, h]
      rw [hcan]
      exact mem_replaceBy_of_ne (fun y : Order => y.id) db.orders _ x hx
        (by simpa [hoid] using hne)

/-- Witness for claim C10 at the completed, paid order of `c10_db`
(cancellation succeeds regardless) and at the absent order id 99. -/
theorem cancel_order_unconditional_witness :
    (cancelOrder c10_db 10).2 = true ∧
    findOrderById (cancelOrder c10_db 10).1.orders 10 =
      some { c10_order with order_status := "cancelled" } ∧
    cancelOrder c10_db 99 = (c10_db, false) ∧
    (cancelUserOrder c10_db 1 10).2 = true ∧
    findUserOrder (cancelUserOrder c10_db 1 10).1.orders 1 10 =
      some { c10_order with order_status := "cancelled" } := by
  have h1 := cancel_order_unconditional c10_db 1 10
  have h2 := cancel_order_unconditional c10_db 1 99
  exact ⟨(h1.2.1 c10_order rfl).1, (h1.2.1 c10_order rfl).2.1, h2.1 rfl,
    (h1.2.2.2 c10_order rfl).1, (h1.2.2.2 c10_order rfl).2.1⟩

end BackendTemplate
